import Mathlib

/-!
Verification of the TeamsFx sample serverless handlers: a task-store HTTP
handler backed by a relational `dbo.Todo` table, and a best-effort
notification handler.  The definitions below are a shallow embedding of the
two handler functions; external collaborators (the SQL store, the credential
exchanger, the graph client) are modelled as environments supplying the
outcome of each downstream call.
-/

namespace TodoApp

/-- A JavaScript string-valued field: `none` models `undefined`. -/
abbrev JsStr := Option String

/-- A JavaScript number-valued field: `none` models `undefined`. -/
abbrev JsInt := Option Int

/-- JavaScript truthiness for an optional string: `undefined` and the empty
string are falsy, every other string truthy. -/
def jsTruthyStr : JsStr → Bool
  | none => false
  | some s => s ≠ ""

/-- JavaScript truthiness for an optional boolean: `undefined` and `false`
are falsy. -/
def jsTruthyBool : Option Bool → Bool
  | none => false
  | some b => b

/-- The `toLowerCase()` call applied to the request method: lowercases every
character of the string. -/
def jsToLower (s : String) : String := String.mk (s.data.map Char.toLower)

/-- Template interpolation of an optional string: `undefined` prints as the
literal text `undefined`. -/
def jsInterpStr : JsStr → String
  | none => "undefined"
  | some s => s

/-- The parsed JSON request body of the task-store handler.  Each field may
be absent (`undefined`). -/
structure ReqBody where
  id : JsInt
  description : JsStr
  isCompleted : Option Bool
  channelOrChatId : JsStr
deriving DecidableEq

/-- Query-string parameters of the task-store handler. -/
structure ReqQuery where
  channelOrChatId : JsStr
deriving DecidableEq

/-- An inbound HTTP request as seen by the task-store handler: a method, a
query string and an optional JSON body (`none` models an absent body, which
is falsy in JavaScript, while a present-but-empty body is truthy). -/
structure Request where
  method : String
  queryParams : ReqQuery
  body : Option ReqBody
deriving DecidableEq

/-- A row of the persisted `dbo.Todo` table.  `isCompleted` is stored as the
bit 0/1 the handler writes. -/
structure Todo where
  id : Int
  description : String
  isCompleted : Int
  objectId : String
  channelOrChatId : String
deriving DecidableEq

/-- The SQL statements the task-store handler assembles, one constructor per
interpolated template in the source `switch`.  An `Option Int` id field
records the interpolated `req.body.id`, with `none` standing for the literal
`undefined` interpolated into the statement text. -/
inductive Query where
  | selectByChannel (channelOrChatId : String)
  | updateDescription (description : String) (id : JsInt)
  | updateIsCompleted (flag : Int) (id : JsInt)
  | insertTodo (description : String) (objectId : String) (flag : Int)
      (channelOrChatId : String)
  | deleteWhereId (id : JsInt)
  | deleteWhereObjectId (objectId : String)
deriving DecidableEq

/-- Query construction: the `switch (method)` of the task-store handler.
Returns `Except` because reading `req.body.description` on an absent body
throws a `TypeError`, which the `catch` of the handler turns into a 500; returns
`Option Query` because an unrecognized method leaves `query` undefined. -/
def constructQuery (method : String) (req : Request) (objectId : String) :
    Except String (Option Query) :=
  if method = "get" then
    .ok (some (.selectByChannel (jsInterpStr req.queryParams.channelOrChatId)))
  else if method = "put" then
    match req.body with
    | none => .error "Cannot read properties of undefined"
    | some b =>
      if jsTruthyStr b.description then
        .ok (some (.updateDescription (jsInterpStr b.description) b.id))
      else
        .ok (some (.updateIsCompleted (if jsTruthyBool b.isCompleted then 1 else 0) b.id))
  else if method = "post" then
    match req.body with
    | none => .error "Cannot read properties of undefined"
    | some b =>
      .ok (some (.insertTodo (jsInterpStr b.description) objectId
        (if jsTruthyBool b.isCompleted then 1 else 0) (jsInterpStr b.channelOrChatId)))
  else if method = "delete" then
    match req.body with
    | some b => .ok (some (.deleteWhereId b.id))
    | none => .ok (some (.deleteWhereObjectId objectId))
  else
    .ok none

/-- A value in a result-row mapping. -/
inductive Value where
  | s : String → Value
  | i : Int → Value
deriving DecidableEq

/-- One result row as the ordered column-name-to-value mapping that
`execQuery` builds from the column metadata of the select list
`id, description, isCompleted, objectId`. -/
def rowMap (t : Todo) : List (String × Value) :=
  [("id", .i t.id), ("description", .s t.description),
   ("isCompleted", .i t.isCompleted), ("objectId", .s t.objectId)]

/-- The relational store executing one constructed statement against a table
state (the external SQL collaborator, standard SQL semantics of the
assembled statements).  A statement whose `where` clause interpolated the
literal `undefined` is rejected by the store. -/
def applyQuery (q : Query) (table : List Todo) :
    Except String (List Todo × List (List (String × Value))) :=
  match q with
  | .selectByChannel c =>
    .ok (table, (table.filter (fun t => t.channelOrChatId = c)).map rowMap)
  | .updateDescription d (some i) =>
    .ok (table.map (fun t => if t.id = i then
      { t with description := d } else t), [])
  | .updateDescription _ none => .error "Invalid column name undefined"
  | .updateIsCompleted f (some i) =>
    .ok (table.map (fun t => if t.id = i then
      { t with isCompleted := f } else t), [])
  | .updateIsCompleted _ none => .error "Invalid column name undefined"
  | .insertTodo d oid f c =>
    .ok (table ++ [⟨(table.map Todo.id).foldr max 0 + 1, d, f, oid, c⟩], [])
  | .deleteWhereId (some i) =>
    .ok (table.filter (fun t => t.id ≠ i), [])
  | .deleteWhereId none => .error "Invalid column name undefined"
  | .deleteWhereObjectId oid =>
    .ok (table.filter (fun t => t.objectId ≠ oid), [])

/-- How one `execSql` request on the driver can end.  The `execQuery` helper
of the source wraps the request in a promise that only ever calls `resolve`:
its error signal is a `throw err` inside the `Request` callback.  The three
cases are therefore distinct: `rows` fires `requestCompleted` and resolves;
`syncError` is the callback invoked synchronously inside the `execSql` call
(the invalid-connection-state path), whose throw escapes the promise
executor and rejects the promise, reaching the `catch` of the handler;
`asyncError` is a server-reported failure whose callback fires
asynchronously from the socket, so the throw is an uncaught process-level
exception and the promise never settles. -/
inductive ExecOutcome where
  | rows : List (List (String × Value)) → ExecOutcome
  | syncError : String → ExecOutcome
  | asyncError : String → ExecOutcome
deriving DecidableEq

/-- Outcome environment of the downstream collaborators of one request:
whether fetching the tedious connection configuration (and constructing the
`Connection`) throws, the error argument the `connect` event fires with
(`none` for a successful connection), the outcome of the on-behalf-of
`getUserInfo` exchange (the derived `objectId` on success), and how the
driver request for a statement ends (`none` models the undefined statement
an unrecognized method leaves behind). -/
structure Env where
  getConfigOutcome : Except String Unit
  connectError : Option String
  userInfoOutcome : Except String String
  execOutcome : Option Query → ExecOutcome

/-- The awaited result of the `execQuery` promise of the source, which only
ever calls `resolve`: resolved rows are an `ok` value, a synchronously
thrown callback error rejects the promise (an `error` value the handler can
catch), and an asynchronously thrown callback error is uncaught and leaves
the promise forever pending (`none`): the `await` in the handler never
resumes. -/
def execQuery : ExecOutcome → Option (Except String (List (List (String × Value))))
  | .rows rs => some (.ok rs)
  | .syncError e => some (.error e)
  | .asyncError _ => none

/-- The observable steps the task-store handler attempts, in order. -/
inductive Effect where
  | acquireConnection
  | deriveIdentity
  | executeQuery
deriving DecidableEq

/-- `getSQLConnection` of the source: fetching the configuration or
constructing the `Connection` may throw, but the returned promise resolves
the connection from the `connect` event while discarding the error argument
of the event, so a connection-level failure reported there is ignored. -/
def getSQLConnection (env : Env) : Except String Unit :=
  match env.getConfigOutcome with
  | .error e => .error e
  | .ok _ =>
    match env.connectError with
    | _ => .ok ()

/-- The steps of the `try` body after the connection was assigned: derive
the caller identity, construct the statement for the lowercased method, and
await `execQuery` on it.  Returns the trace of steps attempted and the
outcome of the body: `some` when the body settles (normally or with a
thrown error), `none` when the awaited driver promise never settles. -/
def afterConnect (env : Env) (req : Request) :
    List Effect × Option (Except String (List (List (String × Value)))) :=
  match env.userInfoOutcome with
  | .error e => ([.acquireConnection, .deriveIdentity], some (.error e))
  | .ok objectId =>
    match constructQuery (jsToLower req.method) req objectId with
    | .error e => ([.acquireConnection, .deriveIdentity], some (.error e))
    | .ok q =>
      ([.acquireConnection, .deriveIdentity, .executeQuery],
        execQuery (env.execOutcome q))

/-- The `try` body of the task-store handler.  Returns whether the
`connection` variable was ever assigned, the trace of steps attempted, and
the outcome of the body (`none` when it never settles). -/
def handlerBody (env : Env) (req : Request) :
    Bool × List Effect × Option (Except String (List (List (String × Value)))) :=
  match getSQLConnection env with
  | .error e => (false, [.acquireConnection], some (.error e))
  | .ok _ => (true, afterConnect env req)

/-- The response body of the task-store handler: the collected result rows
on success, `{error: message}` on a caught exception. -/
inductive RespBody where
  | rows : List (List (String × Value)) → RespBody
  | errorMsg : String → RespBody
deriving DecidableEq

/-- The full observable outcome of one task-store request: the `{status,
body}` value returned — `none` when the awaited body never settles, so that
no response is ever produced — how many times `connection.close()` ran, and
the trace of steps attempted. -/
structure HandlerRun where
  response : Option (Nat × RespBody)
  closes : Nat
  trace : List Effect
deriving DecidableEq

/-- The task-store handler `module.exports`: the `try` body wrapped in the
`catch` that converts any thrown error to `{status: 500, body: {error:
message}}` and the `finally` that closes the connection when one was
assigned.  When the awaited body never settles, control never returns to
the handler frame: the `catch` and the `finally` never run, so no response
is produced and the connection is never closed. -/
def handler (env : Env) (req : Request) : HandlerRun :=
  match handlerBody env req with
  | (acquired, trace, some (.ok rows)) =>
    ⟨some (200, .rows rows), if acquired then 1 else 0, trace⟩
  | (acquired, trace, some (.error e)) =>
    ⟨some (500, .errorMsg e), if acquired then 1 else 0, trace⟩
  | (_, trace, none) => ⟨none, 0, trace⟩

/-- The store collaborator over a fixed table, as the driver reports it to
the `Request` callback: a statement accepted by the store resolves with its
result rows via `requestCompleted`; a statement the server rejects (such as
one whose `where` clause interpolated the literal `undefined`) reports its
error asynchronously from the socket; the undefined statement of an
unrecognized method is sent as a null statement text and likewise fails
with an asynchronously reported server error. -/
def storeExec (table : List Todo) : Option Query → ExecOutcome
  | none => .asyncError "Incorrect syntax"
  | some q =>
    match applyQuery q table with
    | .ok r => .rows r.2
    | .error e => .asyncError e

/-- Row-wise frame relation of a description update targeting `i`: every
column other than `description` is preserved, and `description` becomes `d`
exactly on the row whose id is `i`. -/
def descriptionOnlyUpdated (i : Int) (d : String) (old new : Todo) : Prop :=
  new.id = old.id ∧ new.isCompleted = old.isCompleted ∧
  new.objectId = old.objectId ∧ new.channelOrChatId = old.channelOrChatId ∧
  (old.id = i → new.description = d) ∧
  (old.id ≠ i → new.description = old.description)

/-- Row-wise frame relation of an isCompleted update targeting `i`: every
column other than `isCompleted` is preserved, and `isCompleted` becomes `f`
exactly on the row whose id is `i`. -/
def isCompletedOnlyUpdated (i : Int) (f : Int) (old new : Todo) : Prop :=
  new.id = old.id ∧ new.description = old.description ∧
  new.objectId = old.objectId ∧ new.channelOrChatId = old.channelOrChatId ∧
  (old.id = i → new.isCompleted = f) ∧
  (old.id ≠ i → new.isCompleted = old.isCompleted)

/-- A store environment that accepts every statement and returns no rows. -/
def sampleExecOk : Option Query → ExecOutcome := fun _ => .rows []

/-- An environment where every collaborator succeeds. -/
def envOk : Env := ⟨.ok (), none, .ok "u1", sampleExecOk⟩

/-- An environment where the on-behalf-of token exchange throws. -/
def envUserFail : Env := ⟨.ok (), none, .error "exchange failed", sampleExecOk⟩

/-- An environment where the store is unreachable: the `connect` event fires
with an error, and every subsequent `execSql` on the dead connection fails
on the invalid-connection-state check, which invokes the request callback
synchronously, so the thrown error rejects the promise and is catchable. -/
def envConnFail : Env :=
  ⟨.ok (), some "connection failed", .ok "u1", fun _ => .syncError "dead connection"⟩

/-- An environment backed by the live store over the empty table: every
collaborator before the query succeeds and statement execution behaves as
the driver does. -/
def envRealStore : Env := ⟨.ok (), none, .ok "u1", storeExec []⟩

/-- A read request for channel `c1`, with no body. -/
def reqGet : Request := ⟨"get", ⟨some "c1"⟩, none⟩

/-- A request whose method matches no case of the dispatch. -/
def reqPatch : Request := ⟨"patch", ⟨none⟩, none⟩

/-- A delete request whose body is present but carries no `id` (a parsed
empty JSON object, which is truthy in JavaScript). -/
def reqDeleteEmptyBody : Request := ⟨"delete", ⟨none⟩, some ⟨none, none, none, none⟩⟩

end TodoApp

namespace Notification

/-- Outcome environment of the collaborators of the notification handler:
whether the `OnBehalfOfUserCredential` constructor throws, the outcome of
the graph `/me` profile call (the `userId` on success), of the installation
id lookup, and of posting the activity notification. -/
structure NotifEnv where
  credentialCtorOutcome : Except String Unit
  profileOutcome : Except String String
  installationOutcome : Except String String
  postOutcome : Except String Unit

/-- The observable steps the notification handler attempts. -/
inductive NotifEffect where
  | constructCredential
  | getProfile
  | getInstallation
  | postNotification
  | logError
deriving DecidableEq

/-- The response body of the notification handler: the initialized `res`
body carrying only the echoed request headers, or `{error: message}`. -/
inductive NotifBody where
  | echo : String → NotifBody
  | errorMsg : String → NotifBody
deriving DecidableEq

/-- The outcome of one notification request: the `{status, body}` value
returned and the trace of steps attempted. -/
structure NotifResult where
  status : Nat
  body : NotifBody
  trace : List NotifEffect
deriving DecidableEq

/-- The inbound request and binding context of the notification handler:
the request headers object (absent headers echo as the empty string via
`req.headers || ""`) and the `AccessToken` entry of the teamsfx context
(`none` models an absent entry, `some ""` an empty one; both are falsy). -/
structure NotifRequest where
  headers : Option String
  accessToken : Option String
deriving DecidableEq

/-- JavaScript truthiness of the access token string. -/
def tokenTruthy : Option String → Bool
  | none => false
  | some s => s ≠ ""

/-- The defaulting `req.headers || ""` of the source. -/
def orEmpty : Option String → String
  | some h => h
  | none => ""

/-- The best-effort notification pipeline inside the second `try`: graph
profile, installation id lookup, building the post body, posting.  Returns
the trace of steps attempted and whether anything threw. -/
def notifyPipeline (env : NotifEnv) : List NotifEffect × Except String Unit :=
  match env.profileOutcome with
  | .error e => ([.getProfile], .error e)
  | .ok userId =>
    match env.installationOutcome with
    | .error e => ([.getProfile, .getInstallation], .error e)
    | .ok _ =>
      match env.postOutcome with
      | .error e => ([.getProfile, .getInstallation, .postNotification], .error e)
      | .ok _ =>
        match userId with
        | _ => ([.getProfile, .getInstallation, .postNotification], .ok ())

/-- The notification handler `run`: initialize the 200 response echoing the
request headers, return 400 when the context carries no (truthy) access
token, return 500 when the credential constructor throws, and otherwise run
the best-effort pipeline, logging and swallowing its failure before
returning the original response. -/
def run (env : NotifEnv) (req : NotifRequest) : NotifResult :=
  let res : NotifResult := ⟨200, .echo (orEmpty req.headers), []⟩
  if tokenTruthy req.accessToken = false then
    ⟨400, .errorMsg "No access token was found in request header.", []⟩
  else
    match env.credentialCtorOutcome with
    | .error _ =>
      ⟨500, .errorMsg "Failed to construct OnBehalfOfUserCredential using your accessToken.",
        [.constructCredential]⟩
    | .ok _ =>
      match notifyPipeline env with
      | (trace, .ok _) => ⟨res.status, res.body, .constructCredential :: trace⟩
      | (trace, .error _) =>
        ⟨res.status, res.body, .constructCredential :: trace ++ [.logError]⟩

/-- A notification environment where every collaborator succeeds. -/
def notifEnvOk : NotifEnv := ⟨.ok (), .ok "uid", .ok "inst", .ok ()⟩

/-- A notification environment where the graph profile call throws. -/
def notifEnvProfileFail : NotifEnv := ⟨.ok (), .error "graph down", .ok "inst", .ok ()⟩

/-- A request whose context carries no access token. -/
def reqNoToken : NotifRequest := ⟨some "hdr", none⟩

/-- A request whose context carries an access token. -/
def reqWithToken : NotifRequest := ⟨some "hdr", some "tok"⟩

end Notification

/-- C1: counter-evidence for the never-raises-uncaught claim: a delete
request whose present body carries no `id` builds a statement the server
rejects; the driver reports the failure asynchronously, the `throw err` in
the `Request` callback is an uncaught exception outside the handler stack,
the resolve-only promise never settles, and the handler produces no
`{status, body}` response at all — the exception is neither caught nor
converted.  Errors thrown before the query (identity exchange here) are
caught and converted as claimed. -/
theorem query_failure_uncaught_never_responds :
    TodoApp.storeExec [] (some (.deleteWhereId none))
      = .asyncError "Invalid column name undefined"
    ∧ TodoApp.execQuery (.asyncError "Invalid column name undefined") = none
    ∧ (TodoApp.handler TodoApp.envRealStore TodoApp.reqDeleteEmptyBody).response = none
    ∧ (TodoApp.handler TodoApp.envRealStore TodoApp.reqDeleteEmptyBody).trace
        = [.acquireConnection, .deriveIdentity, .executeQuery]
    ∧ (TodoApp.handler TodoApp.envUserFail TodoApp.reqGet).response
        = some (500, .errorMsg "exchange failed") :=
  ⟨rfl, rfl, by decide, by decide, by decide⟩

/-- C2: counter-evidence for the released-exactly-once claim: on the
unrecognized-method exit path the connection is acquired, the undefined
statement is awaited, the driver promise never settles, so the `finally`
never runs and the acquired connection is closed zero times — not exactly
once — and no response is returned.  On an exit path that settles (here a
successful read) the `finally` does close the acquired connection once. -/
theorem acquired_connection_never_closed_on_hang :
    TodoApp.getSQLConnection TodoApp.envRealStore = .ok ()
    ∧ (TodoApp.handler TodoApp.envRealStore TodoApp.reqPatch).closes = 0
    ∧ (TodoApp.handler TodoApp.envRealStore TodoApp.reqPatch).response = none
    ∧ (TodoApp.handler TodoApp.envRealStore TodoApp.reqGet).closes = 1 :=
  ⟨rfl, by decide, by decide, by decide⟩

/-- C5: counter-evidence for the fail-fast connection claim: when the store
is unreachable and the `connect` event fires with an error, the embedded
`getSQLConnection` still resolves the connection (the source discards the
error argument of the event), so the handler proceeds to identity
derivation and query execution instead of failing the request with the
connection error; the eventual 500 carries the downstream execution error
(thrown synchronously by `execSql` on the dead connection), not the
connection error. -/
theorem connect_error_ignored_proceeds :
    TodoApp.envConnFail.connectError = some "connection failed"
    ∧ TodoApp.getSQLConnection TodoApp.envConnFail = .ok ()
    ∧ (TodoApp.handler TodoApp.envConnFail TodoApp.reqGet).trace
        = [.acquireConnection, .deriveIdentity, .executeQuery]
    ∧ (TodoApp.handler TodoApp.envConnFail TodoApp.reqGet).response
        = some (500, .errorMsg "dead connection") :=
  ⟨rfl, rfl, by decide, by decide⟩

/-- C3 counterexample: a delete request whose body is present but supplies
no `id` (a parsed empty JSON object): the constructed statement filters on
the interpolated `id = undefined`, not on `objectId` as the claim requires
for the no-id case, and applied to a table holding one row owned by the
caller it is rejected by the store, so no objectId-scoped deletion takes
place. -/
theorem delete_no_id_body_counterexample :
    TodoApp.constructQuery "delete" TodoApp.reqDeleteEmptyBody "u1"
      = .ok (some (.deleteWhereId none))
    ∧ TodoApp.constructQuery "delete" TodoApp.reqDeleteEmptyBody "u1"
      ≠ .ok (some (.deleteWhereObjectId "u1"))
    ∧ TodoApp.applyQuery (.deleteWhereId none) [⟨1, "d", 0, "u1", "c1"⟩]
      = .error "Invalid column name undefined" := by
  refine ⟨rfl, ?_, rfl⟩
  intro h
  have h2 : Except.ok (ε := String) (some (TodoApp.Query.deleteWhereId none))
      = Except.ok (some (TodoApp.Query.deleteWhereObjectId "u1")) := h
  simp at h2

/-- C3 (amended): the delete dispatch branches on presence of the request
body, not on presence of an `id`: with any body present the statement
deletes the rows whose id equals the interpolated `req.body.id` (the
literal `undefined` when the field is absent, which the store rejects);
only when no body is present does it delete exactly the rows whose
`objectId` equals the derived identity. -/
theorem delete_dispatches_on_body_presence (oid : String) (qp : TodoApp.ReqQuery) :
    (∀ b : TodoApp.ReqBody,
        TodoApp.constructQuery "delete" ⟨"delete", qp, some b⟩ oid
          = .ok (some (.deleteWhereId b.id)))
    ∧ TodoApp.constructQuery "delete" ⟨"delete", qp, none⟩ oid
        = .ok (some (.deleteWhereObjectId oid))
    ∧ (∀ (i : Int) (table : List TodoApp.Todo) (t : TodoApp.Todo),
        TodoApp.applyQuery (.deleteWhereId (some i)) table
          = .ok (table.filter (fun r => r.id ≠ i), [])
        ∧ (t ∈ table.filter (fun r => r.id ≠ i) ↔ t ∈ table ∧ t.id ≠ i))
    ∧ (∀ (table : List TodoApp.Todo) (t : TodoApp.Todo),
        TodoApp.applyQuery (.deleteWhereObjectId oid) table
          = .ok (table.filter (fun r => r.objectId ≠ oid), [])
        ∧ (t ∈ table.filter (fun r => r.objectId ≠ oid)
            ↔ t ∈ table ∧ t.objectId ≠ oid)) := by
  refine ⟨fun b => rfl, rfl, ?_, ?_⟩
  · intro i table t
    refine ⟨rfl, ?_⟩
    simp [List.mem_filter]
  · intro table t
    refine ⟨rfl, ?_⟩
    simp [List.mem_filter]

/-- C4: an update request changes exactly one column of the matching row
and never both: when the body carries a truthy `description` the
constructed statement is the description update, whose application changes
only the `description` column of the row matching `id`; otherwise the
constructed statement is the isCompleted update with the body flag coerced
to 1 for truthy input and 0 otherwise, whose application changes only the
`isCompleted` column. -/
theorem update_changes_exactly_one_column
    (b : TodoApp.ReqBody) (oid : String) (qp : TodoApp.ReqQuery) (i : Int)
    (hid : b.id = some i) :
    (∀ d : String, b.description = some d → d ≠ "" →
        TodoApp.constructQuery "put" ⟨"put", qp, some b⟩ oid
          = .ok (some (.updateDescription d (some i)))
        ∧ ∀ table : List TodoApp.Todo, ∃ t2,
            TodoApp.applyQuery (.updateDescription d (some i)) table = .ok (t2, [])
            ∧ List.Forall₂ (TodoApp.descriptionOnlyUpdated i d) table t2)
    ∧ (TodoApp.jsTruthyStr b.description = false →
        TodoApp.constructQuery "put" ⟨"put", qp, some b⟩ oid
          = .ok (some (.updateIsCompleted
              (if TodoApp.jsTruthyBool b.isCompleted then 1 else 0) (some i)))
        ∧ ∀ table : List TodoApp.Todo, ∃ t2,
            TodoApp.applyQuery (.updateIsCompleted
              (if TodoApp.jsTruthyBool b.isCompleted then 1 else 0) (some i)) table
              = .ok (t2, [])
            ∧ List.Forall₂ (TodoApp.isCompletedOnlyUpdated i
                (if TodoApp.jsTruthyBool b.isCompleted then 1 else 0)) table t2) := by
  constructor
  · intro d hbd hd
    have htr : TodoApp.jsTruthyStr (some d) = true := by
      simp [TodoApp.jsTruthyStr, hd]
    constructor
    · simp [TodoApp.constructQuery, hbd, htr, hid, TodoApp.jsInterpStr]
    · intro table
      refine ⟨_, rfl, ?_⟩
      rw [List.forall₂_map_right_iff, List.forall₂_same]
      intro x hx
      by_cases hxi : x.id = i <;>
        simp [TodoApp.descriptionOnlyUpdated, hxi]
  · intro hfalse
    constructor
    · simp [TodoApp.constructQuery, hfalse, hid]
    · intro table
      refine ⟨_, rfl, ?_⟩
      rw [List.forall₂_map_right_iff, List.forall₂_same]
      intro x hx
      by_cases hxi : x.id = i <;>
        simp [TodoApp.isCompletedOnlyUpdated, hxi]

/-- C4 witness: a concrete update request with id 5 and a nonempty
description constructs the description update, and applying it to a
one-row table rewrites only the description column. -/
theorem update_changes_exactly_one_column_witness :
    TodoApp.constructQuery "put"
        ⟨"put", ⟨none⟩, some ⟨some 5, some "milk", some true, none⟩⟩ "u1"
      = .ok (some (.updateDescription "milk" (some 5)))
    ∧ ∃ t2, TodoApp.applyQuery (.updateDescription "milk" (some 5))
        [⟨5, "old", 0, "u1", "c1"⟩] = .ok (t2, [])
        ∧ List.Forall₂ (TodoApp.descriptionOnlyUpdated 5 "milk")
            [⟨5, "old", 0, "u1", "c1"⟩] t2 := by
  have h := (update_changes_exactly_one_column
    ⟨some 5, some "milk", some true, none⟩ "u1" ⟨none⟩ 5 rfl).1 "milk" rfl (by decide)
  exact ⟨h.1, h.2 [⟨5, "old", 0, "u1", "c1"⟩]⟩

/-- C10: an update request whose body carries the empty string as its
description takes the isCompleted branch: the constructed statement updates
`isCompleted` (coerced from the body flag) and its application leaves every
description unchanged — an empty-string description behaves like an absent
one. -/
theorem empty_description_takes_isCompleted_branch
    (b : TodoApp.ReqBody) (oid : String) (qp : TodoApp.ReqQuery)
    (hbd : b.description = some "") :
    TodoApp.constructQuery "put" ⟨"put", qp, some b⟩ oid
      = .ok (some (.updateIsCompleted
          (if TodoApp.jsTruthyBool b.isCompleted then 1 else 0) b.id))
    ∧ (∀ (i : Int) (table : List TodoApp.Todo), b.id = some i → ∃ t2,
        TodoApp.applyQuery (.updateIsCompleted
          (if TodoApp.jsTruthyBool b.isCompleted then 1 else 0) (some i)) table
          = .ok (t2, [])
        ∧ List.Forall₂ (fun old new : TodoApp.Todo => new.description = old.description) table t2) := by
  have hfalse : TodoApp.jsTruthyStr b.description = false := by
    rw [hbd]
    simp [TodoApp.jsTruthyStr]
  constructor
  · simp [TodoApp.constructQuery, hfalse]
  · intro i table hi
    refine ⟨_, rfl, ?_⟩
    rw [List.forall₂_map_right_iff, List.forall₂_same]
    intro x hx
    by_cases hxi : x.id = i <;> simp [hxi]

/-- C10 witness: a concrete update request with id 5 and the empty string
as description constructs the isCompleted update, and applying it preserves
the description of the stored row. -/
theorem empty_description_takes_isCompleted_branch_witness :
    TodoApp.constructQuery "put"
        ⟨"put", ⟨none⟩, some ⟨some 5, some "", some true, none⟩⟩ "u1"
      = .ok (some (.updateIsCompleted 1 (some 5)))
    ∧ ∃ t2, TodoApp.applyQuery (.updateIsCompleted 1 (some 5))
        [⟨5, "old", 0, "u1", "c1"⟩] = .ok (t2, [])
        ∧ List.Forall₂ (fun old new : TodoApp.Todo => new.description = old.description)
            [⟨5, "old", 0, "u1", "c1"⟩] t2 := by
  have h := empty_description_takes_isCompleted_branch
    ⟨some 5, some "", some true, none⟩ "u1" ⟨none⟩ rfl
  exact ⟨h.1, h.2 5 [⟨5, "old", 0, "u1", "c1"⟩] rfl⟩

/-- C8: a valid read request for channel `c` against the store environment
returns status 200 with exactly the rows whose `channelOrChatId` matches,
in store order, each row an ordered column-name-to-value mapping whose
column order is that of the metadata of the select list. -/
theorem read_returns_matching_rows (table : List TodoApp.Todo) (c oid : String) :
    (TodoApp.handler ⟨.ok (), none, .ok oid, TodoApp.storeExec table⟩
        ⟨"get", ⟨some c⟩, none⟩).response
      = some (200,
          .rows ((table.filter (fun t => t.channelOrChatId = c)).map TodoApp.rowMap))
    ∧ (∀ m, m ∈ (table.filter (fun t => t.channelOrChatId = c)).map TodoApp.rowMap
        ↔ ∃ t, t ∈ table ∧ t.channelOrChatId = c ∧ m = TodoApp.rowMap t)
    ∧ (∀ t : TodoApp.Todo, (TodoApp.rowMap t).map Prod.fst
        = ["id", "description", "isCompleted", "objectId"]) := by
  have hb : TodoApp.handlerBody ⟨.ok (), none, .ok oid, TodoApp.storeExec table⟩
      ⟨"get", ⟨some c⟩, none⟩
      = (true, [.acquireConnection, .deriveIdentity, .executeQuery],
          some (.ok ((table.filter (fun t => t.channelOrChatId = c)).map
            TodoApp.rowMap))) := rfl
  refine ⟨?_, ?_, fun t => rfl⟩
  · simp [TodoApp.handler, hb]
  · intro m
    simp only [List.mem_map, List.mem_filter, decide_eq_true_eq]
    constructor
    · rintro ⟨a, ⟨ha, hac⟩, hm⟩
      exact ⟨a, ha, hac, hm.symm⟩
    · rintro ⟨t, ht, htc, hm⟩
      exact ⟨t, ⟨ht, htc⟩, hm.symm⟩

/-- C9: counter-evidence for the graceful-undefined-statement claim: a
request whose lowercased method is none of get, put, post and delete does
construct no statement (`query` stays undefined, as the claim says), but
the downstream step does not handle it gracefully: the undefined statement
text is sent to the server, whose rejection fires the driver callback
asynchronously, the thrown error is uncaught, the promise never settles,
and the handler yields no `{status, body}` response at all. -/
theorem undefined_statement_request_hangs :
    TodoApp.jsToLower TodoApp.reqPatch.method
        ∉ (["get", "put", "post", "delete"] : List String)
    ∧ TodoApp.constructQuery (TodoApp.jsToLower TodoApp.reqPatch.method)
        TodoApp.reqPatch "u1" = .ok none
    ∧ TodoApp.storeExec [] none = .asyncError "Incorrect syntax"
    ∧ TodoApp.execQuery (TodoApp.storeExec [] none) = none
    ∧ (TodoApp.handler TodoApp.envRealStore TodoApp.reqPatch).trace
        = [.acquireConnection, .deriveIdentity, .executeQuery]
    ∧ (TodoApp.handler TodoApp.envRealStore TodoApp.reqPatch).response = none :=
  ⟨by decide, rfl, rfl, rfl, by decide, by decide⟩

/-- C6: a notification request whose context carries no (truthy) access
token returns status 400 with an error body, and the credential
construction step is never attempted. -/
theorem missing_token_returns_400 (env : Notification.NotifEnv)
    (req : Notification.NotifRequest)
    (h : Notification.tokenTruthy req.accessToken = false) :
    (Notification.run env req).status = 400
    ∧ (∃ m, (Notification.run env req).body = .errorMsg m)
    ∧ Notification.NotifEffect.constructCredential
        ∉ (Notification.run env req).trace := by
  refine ⟨?_, ⟨"No access token was found in request header.", ?_⟩, ?_⟩ <;>
    simp [Notification.run, h]

/-- C6 witness: the request with no token entry in its context is answered
with 400, an error body, and no credential construction. -/
theorem missing_token_returns_400_witness :
    Notification.tokenTruthy Notification.reqNoToken.accessToken = false
    ∧ (Notification.run Notification.notifEnvOk Notification.reqNoToken).status = 400
    ∧ (∃ m, (Notification.run Notification.notifEnvOk Notification.reqNoToken).body
        = .errorMsg m)
    ∧ Notification.NotifEffect.constructCredential
        ∉ (Notification.run Notification.notifEnvOk Notification.reqNoToken).trace :=
  ⟨rfl, missing_token_returns_400 Notification.notifEnvOk Notification.reqNoToken rfl⟩

/-- C7: with a token present and a successfully constructed credential, the
handler returns its original status-200 response whose body carries only
the echoed request headers, whatever the outcomes of the graph profile
call, the installation lookup and the notification post; a failing pipeline
only adds the logging step to the trace. -/
theorem notification_failures_swallowed (env : Notification.NotifEnv)
    (req : Notification.NotifRequest)
    (ht : Notification.tokenTruthy req.accessToken = true)
    (hc : env.credentialCtorOutcome = .ok ()) :
    (Notification.run env req).status = 200
    ∧ (Notification.run env req).body = .echo (Notification.orEmpty req.headers)
    ∧ (∀ e, (Notification.notifyPipeline env).2 = .error e →
        Notification.NotifEffect.logError ∈ (Notification.run env req).trace) := by
  rcases hp : Notification.notifyPipeline env with ⟨tr, o⟩
  cases o with
  | error e0 =>
    refine ⟨?_, ?_, fun e he => ?_⟩ <;> simp [Notification.run, ht, hc, hp]
  | ok u =>
    refine ⟨?_, ?_, fun e he => ?_⟩
    · simp [Notification.run, ht, hc, hp]
    · simp [Notification.run, ht, hc, hp]
    · simp at he

/-- C7 witness: with a token and a working credential but a failing graph
profile call, the handler still answers 200 with only the echoed headers,
and logs the failure. -/
theorem notification_failures_swallowed_witness :
    Notification.tokenTruthy Notification.reqWithToken.accessToken = true
    ∧ Notification.notifEnvProfileFail.credentialCtorOutcome = .ok ()
    ∧ (Notification.notifyPipeline Notification.notifEnvProfileFail).2
        = .error "graph down"
    ∧ (Notification.run Notification.notifEnvProfileFail
        Notification.reqWithToken).status = 200
    ∧ (Notification.run Notification.notifEnvProfileFail
        Notification.reqWithToken).body = .echo "hdr"
    ∧ Notification.NotifEffect.logError
        ∈ (Notification.run Notification.notifEnvProfileFail
            Notification.reqWithToken).trace := by
  have h := notification_failures_swallowed Notification.notifEnvProfileFail
    Notification.reqWithToken rfl rfl
  exact ⟨rfl, rfl, rfl, h.1, h.2.1, h.2.2 "graph down" rfl⟩
